import Mathlib

/-!
Verification of the sql-agent query pipeline against its specification.

The repository ships the web client (src/frontend and the unnamed page and
api-client modules); the server-side components it talks to (Safety
Validator, Execution Engine, Connection Registry, history store) are not
part of this source tree.  Client-side behaviour is embedded directly from
the TypeScript source; server-side operations are modelled from the
specification and are marked as such in their doc comments.

String handling: the few string operations the client uses (trim, leading
token extraction, upper-casing) are defined here over the character list of
the string so that all definitions evaluate by kernel reduction.
-/

/-- Characters of a string with leading and trailing whitespace removed,
mirroring the trim operations used by the code. -/
def jsTrimChars (cs : List Char) : List Char :=
  ((cs.dropWhile Char.isWhitespace).reverse.dropWhile Char.isWhitespace).reverse

/-- Model of the JavaScript String.prototype.trim used throughout the client. -/
def jsTrim (s : String) : String :=
  String.mk (jsTrimChars s.data)

/-! ## Safety Validator and Execution Engine (spec section 4.5 and 4.6) -/

/-- Reasons the Safety Validator rejects a statement (spec sections 4.5, 7). -/
inductive RejectReason where
  | readOnlyViolation
  | multiStatementRejected
deriving DecidableEq

/-- Outcome of the parse-classify state machine of spec section 4.5. -/
inductive ValidationResult where
  | allow
  | reject (reason : RejectReason)
deriving DecidableEq

/-- Modelled from the spec: the Safety Validator is server code absent from
src/.  Spec section 4.5 classifies a candidate statement by its leading
operation, compared case-insensitively; this extracts the first alphabetic
run of the statement, upper-cased. -/
def leadingOperation (sql : String) : String :=
  String.mk (((sql.data.dropWhile Char.isWhitespace).takeWhile Char.isAlpha).map Char.toUpper)

/-- The statement-leading keywords a read-only connection accepts
(spec sections 4.5 and 8). -/
def readOnlyAllowed : List String := ["SELECT", "WITH", "EXPLAIN"]

/-- Modelled from the spec: naive statement-terminator scanning for a second
top-level statement (spec section 4.5; noted in section 9 as a known gap).
A statement is multi-statement when a terminator remains after stripping
trailing terminators and whitespace. -/
def hasMultipleStatements (sql : String) : Bool :=
  (((jsTrimChars sql.data).reverse.dropWhile fun c => c = ';').reverse).contains ';'

/-- Modelled from the spec: the Safety Validator of spec section 4.5, absent
from src/.  For a read-only connection a statement whose leading operation is
outside the allowed enumeration is rejected with ReadOnlyViolation (spec
section 8 states this holds for every such statement); otherwise a second
top-level statement is rejected with MultiStatementRejected; otherwise the
statement is allowed. -/
def validateStatement (is_readonly : Bool) (sql : String) : ValidationResult :=
  if is_readonly && !(readOnlyAllowed.contains (leadingOperation sql)) then
    .reject .readOnlyViolation
  else if hasMultipleStatements sql then
    .reject .multiStatementRejected
  else
    .allow

/-- One validation-then-execution attempt of the pipeline, with a spy on the
Execution Engine: the outcome of validation and how many times the engine
ran. -/
structure PipelineAttempt where
  outcome : ValidationResult
  executionCount : Nat
deriving DecidableEq

/-- Modelled from the spec: the pipeline step of spec sections 2 and 4.5 in
which a rejection is terminal for the attempt, so the Execution Engine (spec
section 4.6, absent from src/) runs exactly when validation allows the
statement. -/
def validateThenExecute (is_readonly : Bool) (sql : String) : PipelineAttempt :=
  match validateStatement is_readonly sql with
  | .allow => { outcome := .allow, executionCount := 1 }
  | .reject r => { outcome := .reject r, executionCount := 0 }

/-- C1: for a read-only connection, every statement whose leading keyword
(case-insensitively) is not SELECT, WITH or EXPLAIN is rejected with
ReadOnlyViolation and the Execution Engine is never invoked for that
attempt. -/
theorem readonly_rejects_without_execution (sql : String)
    (h : leadingOperation sql ∉ readOnlyAllowed) :
    validateThenExecute true sql =
      { outcome := .reject .readOnlyViolation, executionCount := 0 } := by
  simp [validateThenExecute, validateStatement, h]

/-- Concrete instance of C1: a user-submitted DELETE on a read-only
connection is rejected with ReadOnlyViolation and never executed. -/
theorem readonly_rejects_without_execution_witness :
    leadingOperation "DELETE FROM orders" ∉ readOnlyAllowed ∧
      validateThenExecute true "DELETE FROM orders" =
        { outcome := .reject .readOnlyViolation, executionCount := 0 } :=
  ⟨by decide, readonly_rejects_without_execution "DELETE FROM orders" (by decide)⟩

/-! ## Question submission pipeline on the client (Query.tsx, handleSubmit) -/

/-- A parameter produced by the detect-parameters endpoint, as typed in the
api client (src/unnamed/part_003) and consumed by Query.tsx.  Default values
are modelled as strings; a missing or null default is none. -/
structure ParameterSpec where
  name : String
  label : String
  type : String
  description : Option String
  default : Option String
  required : Bool
deriving DecidableEq

/-- The response of the ask endpoint as far as Query.tsx consumes it when a
submission fails or succeeds without rows being needed by a claim: the sql,
the explanation and the error field. -/
structure AskResponse where
  sql : String
  explanation : String
  error : Option String
deriving DecidableEq

/-- Outcome of the detect-parameters call in handleSubmit (Query.tsx 150):
either a response, or a thrown error whose response body carried the given
partial sql, explanation and message (Query.tsx 174-180 reads them off the
error, defaulting each to the empty string resp. a fallback message). -/
inductive DetectOutcome where
  | ok (needs_parameters : Bool) (parameters : List ParameterSpec)
  | thrown (sql : String) (explanation : String) (message : String)
deriving DecidableEq

/-- Outcome of the ask call inside executeWithParams (Query.tsx 192):
either a response or a thrown error, read off the same way. -/
inductive AskOutcome where
  | ok (response : AskResponse)
  | thrown (sql : String) (explanation : String) (message : String)
deriving DecidableEq

/-- The component state a submission leaves behind, plus a spy recording
whether the ask endpoint (generation and execution) was invoked.  Chart
suggestion fetching (Query.tsx 196-204) touches no state a claim mentions
and is not modelled. -/
structure SubmitState where
  result : Option AskResponse
  detectedParams : List ParameterSpec
  paramValues : List (String × String)
  showParamDialog : Bool
  pendingQuery : Option String
  askCalled : Bool
deriving DecidableEq

/-- Initial value Query.tsx 156-164 assigns to one detected parameter: an
explicit non-null default wins; otherwise a date parameter defaults to
today (the value of new Date().toISOString().split('T')[0], passed in here
as the today argument); otherwise no value is assigned. -/
def initialParamValue (today : String) (p : ParameterSpec) : Option String :=
  match p.default with
  | some v => some v
  | none => if p.type = "date" then some today else none

/-- The defaults record built by the forEach of Query.tsx 156-164, as the
association list of parameters that received an initial value. -/
def computeDefaults (today : String) (params : List ParameterSpec) : List (String × String) :=
  params.filterMap fun p => (initialParamValue today p).map fun v => (p.name, v)

/-- executeWithParams (Query.tsx 185-215): calls ask and stores either the
response or an error response assembled from the thrown error's body. -/
def executeWithParams (a : AskOutcome) : SubmitState :=
  match a with
  | .ok response =>
      { result := some response, detectedParams := [], paramValues := [],
        showParamDialog := false, pendingQuery := none, askCalled := true }
  | .thrown sql explanation message =>
      { result := some { sql := sql, explanation := explanation, error := some message },
        detectedParams := [], paramValues := [],
        showParamDialog := false, pendingQuery := none, askCalled := true }

/-- handleSubmit (Query.tsx 138-183).  A blank question returns without any
call.  Otherwise detect-parameters runs first: when it reports parameters
and the list is nonempty the parameter dialog is shown with the computed
defaults and nothing executes yet; when it reports none (or an empty list)
the submission proceeds to executeWithParams; when the detect call throws,
the catch at Query.tsx 174-182 stores an error result and stops. -/
def handleSubmit (today : String) (query : String) (d : DetectOutcome) (a : AskOutcome) :
    SubmitState :=
  if jsTrim query = "" then
    { result := none, detectedParams := [], paramValues := [],
      showParamDialog := false, pendingQuery := none, askCalled := false }
  else
    match d with
    | .ok needs params =>
        if needs && params.length > 0 then
          { result := none, detectedParams := params,
            paramValues := computeDefaults today params,
            showParamDialog := true, pendingQuery := some (jsTrim query),
            askCalled := false }
        else
          executeWithParams a
    | .thrown sql explanation message =>
        { result := some { sql := sql, explanation := explanation, error := some message },
          detectedParams := [], paramValues := [],
          showParamDialog := false, pendingQuery := none, askCalled := false }

/-- C2 counterexample: when the detect call throws, handleSubmit does not
proceed to generation and execution as if needsParameters were false; it
stores an error result and never calls ask, unlike the needsParameters=false
run of the same question, which does call ask. -/
theorem detect_failure_blocks_submission :
    (handleSubmit "2026-10-12" "how many orders are there"
        (.thrown "" "" "Query failed") (.ok { sql := "SELECT 1", explanation := "", error := none })).askCalled
        = false ∧
      (handleSubmit "2026-10-12" "how many orders are there"
        (.ok false []) (.ok { sql := "SELECT 1", explanation := "", error := none })).askCalled
        = true ∧
      (handleSubmit "2026-10-12" "how many orders are there"
          (.thrown "" "" "Query failed") (.ok { sql := "SELECT 1", explanation := "", error := none })).result
        = some { sql := "", explanation := "", error := some "Query failed" } := by
  refine ⟨by decide, by decide, by decide⟩

/-- C2 as amended: for every nonblank question, when the detect call throws,
the pipeline reports the error carried by the detection failure (with any
partial sql and explanation from the response body) and stops: the ask
endpoint is never invoked and no parameter dialog is shown. -/
theorem detect_failure_reports_error_and_stops (today query sql explanation message : String)
    (a : AskOutcome) (h : jsTrim query ≠ "") :
    (handleSubmit today query (.thrown sql explanation message) a).askCalled = false ∧
      (handleSubmit today query (.thrown sql explanation message) a).result
        = some { sql := sql, explanation := explanation, error := some message } ∧
      (handleSubmit today query (.thrown sql explanation message) a).showParamDialog = false := by
  simp [handleSubmit, h]

/-- Concrete instance of the amended C2. -/
theorem detect_failure_reports_error_and_stops_witness :
    jsTrim "list users" ≠ "" ∧
      ((handleSubmit "2026-10-12" "list users" (.thrown "SELECT" "partial" "timeout")
          (.ok { sql := "", explanation := "", error := none })).askCalled = false ∧
        (handleSubmit "2026-10-12" "list users" (.thrown "SELECT" "partial" "timeout")
            (.ok { sql := "", explanation := "", error := none })).result
          = some { sql := "SELECT", explanation := "partial", error := some "timeout" } ∧
        (handleSubmit "2026-10-12" "list users" (.thrown "SELECT" "partial" "timeout")
            (.ok { sql := "", explanation := "", error := none })).showParamDialog = false) :=
  ⟨by decide, detect_failure_reports_error_and_stops "2026-10-12" "list users" "SELECT"
    "partial" "timeout" (.ok { sql := "", explanation := "", error := none }) (by decide)⟩

/-- C5: a detect result with needs_parameters true but an empty parameter
list is treated exactly like needs_parameters false: no parameter dialog,
the ask endpoint is invoked, and the resulting state is identical to that of
a needs_parameters=false run. -/
theorem empty_parameter_list_like_false (today query : String) (a : AskOutcome)
    (ps : List ParameterSpec) (h : jsTrim query ≠ "") :
    (handleSubmit today query (.ok true []) a).showParamDialog = false ∧
      (handleSubmit today query (.ok true []) a).askCalled = true ∧
      handleSubmit today query (.ok true []) a = handleSubmit today query (.ok false ps) a := by
  refine ⟨?_, ?_, ?_⟩ <;> simp [handleSubmit, h] <;> cases a <;> simp [executeWithParams]

/-- Concrete instance of C5. -/
theorem empty_parameter_list_like_false_witness :
    jsTrim "show all orders" ≠ "" ∧
      ((handleSubmit "2026-10-12" "show all orders" (.ok true [])
          (.ok { sql := "SELECT 1", explanation := "", error := none })).showParamDialog = false ∧
        (handleSubmit "2026-10-12" "show all orders" (.ok true [])
            (.ok { sql := "SELECT 1", explanation := "", error := none })).askCalled = true ∧
        handleSubmit "2026-10-12" "show all orders" (.ok true [])
            (.ok { sql := "SELECT 1", explanation := "", error := none })
          = handleSubmit "2026-10-12" "show all orders" (.ok false [])
              (.ok { sql := "SELECT 1", explanation := "", error := none })) :=
  ⟨by decide, empty_parameter_list_like_false "2026-10-12" "show all orders"
    (.ok { sql := "SELECT 1", explanation := "", error := none }) [] (by decide)⟩

/-- C6: a detected date parameter with no default is initialized to today's
date, a parameter with an explicit non-null default is initialized to that
default, and when the parameter dialog is shown the dialog's values are
exactly the defaults so computed. -/
theorem date_parameter_defaults_to_today (today query : String) (p : ParameterSpec)
    (params : List ParameterSpec) (a : AskOutcome)
    (hq : jsTrim query ≠ "") (hne : params ≠ []) :
    (p.type = "date" → p.default = none → initialParamValue today p = some today) ∧
      (∀ v, p.default = some v → initialParamValue today p = some v) ∧
      (handleSubmit today query (.ok true params) a).paramValues
        = computeDefaults today params := by
  refine ⟨?_, ?_, ?_⟩
  · intro ht hd
    simp [initialParamValue, hd, ht]
  · intro v hv
    simp [initialParamValue, hv]
  · have hl : params.length > 0 := List.length_pos.mpr hne
    simp [handleSubmit, hq, hl]

/-- A sample detected parameter: a required date with no default, used to
instantiate the date-default theorem. -/
def sampleDateParam : ParameterSpec :=
  { name := "day", label := "Day", type := "date", description := none,
    default := none, required := true }

/-- Concrete instance of C6: one date parameter without a default is given
today's date in the dialog. -/
theorem date_parameter_defaults_to_today_witness :
    jsTrim "orders on a date" ≠ "" ∧ [sampleDateParam] ≠ [] ∧
      initialParamValue "2026-10-12" sampleDateParam = some "2026-10-12" ∧
      (handleSubmit "2026-10-12" "orders on a date" (.ok true [sampleDateParam])
          (.ok { sql := "", explanation := "", error := none })).paramValues
        = [("day", "2026-10-12")] := by
  have h := date_parameter_defaults_to_today "2026-10-12" "orders on a date"
    sampleDateParam [sampleDateParam]
    (.ok { sql := "", explanation := "", error := none }) (by decide) (by decide)
  refine ⟨by decide, by decide, h.1 rfl rfl, ?_⟩
  rw [h.2.2]
  decide

/-! ## Editable SQL, resubmission and correction feedback (Query.tsx) -/

/-- The slice of QueryPage state that the editable-SQL flow reads and
writes: the sql of the current result (empty when the result carried none),
the content of the editable textarea, the isEditing flag, and the
natural-language question. -/
structure EditorState where
  generatedSql : String
  editableSql : String
  isEditing : Bool
  query : String
deriving DecidableEq

/-- The textarea onChange handler (Query.tsx 570-573 and 645-648): stores
the new text and sets isEditing to whether it differs from the generated
sql. -/
def editSql (s : EditorState) (v : String) : EditorState :=
  { s with editableSql := v, isEditing := v != s.generatedSql }

/-- The effect of Query.tsx 69-74 on the arrival of a result whose sql field
is the given string: when it is nonempty (truthy) the editable text is
resynchronized to it and isEditing cleared; an empty sql leaves both
untouched. -/
def syncResult (s : EditorState) (sql : String) : EditorState :=
  if sql != "" then
    { s with generatedSql := sql, editableSql := sql, isEditing := false }
  else
    { s with generatedSql := sql }

/-- The execute endpoint's response (types/index.ts QueryResult); cell
values are modelled as optional strings, none standing for SQL NULL. -/
structure QueryResult where
  columns : List String
  rows : List (List (Option String))
  row_count : Nat
  execution_time_ms : Nat
deriving DecidableEq

/-- Outcome of the execute call in handleRunModifiedSql (Query.tsx 240). -/
inductive ExecOutcome where
  | ok (r : QueryResult)
  | thrown (message : String)
deriving DecidableEq

/-- The body of the feedback submission (api client submitFeedback,
src/unnamed/part_003 152-160). -/
structure FeedbackPayload where
  connection_id : Nat
  natural_language : String
  original_sql : String
  corrected_sql : String
deriving DecidableEq

/-- The api-client operations the resubmission flow can reach, recorded as a
call trace. -/
inductive ApiCall where
  | detectParameters (connection_id : Nat) (natural_language : String)
  | ask (connection_id : Nat) (natural_language : String)
  | execute (connection_id : Nat) (sql : String)
  | submitFeedback (payload : FeedbackPayload)
deriving DecidableEq

/-- What one run of handleRunModifiedSql produced: the api calls it issued
in order, the feedback it submitted (if any), the error it stored on the
result (if the execution threw), and the isEditing flag it left behind. -/
structure RunModifiedResult where
  calls : List ApiCall
  feedback : Option FeedbackPayload
  errorSet : Option String
  isEditingAfter : Bool
deriving DecidableEq

/-- handleRunModifiedSql (Query.tsx 235-275).  A blank edited sql returns
without any call.  Otherwise the trimmed edited sql is executed; on success,
feedback is submitted exactly when isEditing is set and the generated sql is
nonempty (the truthiness guard at Query.tsx 253), and isEditing is cleared;
on a thrown execution the error is stored and no feedback is submitted. -/
def handleRunModifiedSql (connId : Nat) (s : EditorState) (e : ExecOutcome) :
    RunModifiedResult :=
  if jsTrim s.editableSql = "" then
    { calls := [], feedback := none, errorSet := none, isEditingAfter := s.isEditing }
  else
    match e with
    | .ok _ =>
        let payload : FeedbackPayload :=
          { connection_id := connId, natural_language := s.query,
            original_sql := s.generatedSql, corrected_sql := jsTrim s.editableSql }
        if s.isEditing && s.generatedSql != "" then
          { calls := [.execute connId (jsTrim s.editableSql), .submitFeedback payload],
            feedback := some payload, errorSet := none, isEditingAfter := false }
        else
          { calls := [.execute connId (jsTrim s.editableSql)],
            feedback := none, errorSet := none, isEditingAfter := false }
    | .thrown message =>
        { calls := [.execute connId (jsTrim s.editableSql)],
          feedback := none, errorSet := some message, isEditingAfter := s.isEditing }

/-- Editing always leaves isEditing equal to the comparison of the editable
text with the generated sql. -/
theorem editSql_isEditing (s : EditorState) (v : String) :
    (editSql s v).isEditing = ((editSql s v).editableSql != (editSql s v).generatedSql) := by
  simp [editSql]

/-- Resynchronizing on a nonempty generated sql also restores that
relation. -/
theorem syncResult_isEditing (s : EditorState) (sql : String) (h : sql ≠ "") :
    (syncResult s sql).isEditing
      = ((syncResult s sql).editableSql != (syncResult s sql).generatedSql) := by
  simp [syncResult, h]

/-- A successful execution result used to instantiate the theorems. -/
def sampleExecResult : QueryResult :=
  { columns := ["n"], rows := [[some "3"]], row_count := 1, execution_time_ms := 5 }

/-- The editor state reached when no sql was generated (result.sql empty)
and the user types a query into the editable textarea. -/
def emptyGeneratedState : EditorState :=
  editSql { generatedSql := "", editableSql := "", isEditing := false,
            query := "how many orders are there" } "SELECT 2"

/-- C3 counterexample: with an empty generated sql, an edit that differs
from it is executed successfully yet no feedback is submitted, because the
guard at Query.tsx 253 also requires the generated sql to be truthy.  So
feedback is not submitted whenever the edited sql differs and execution
succeeds. -/
theorem edited_empty_generated_sql_submits_no_feedback :
    emptyGeneratedState.editableSql ≠ emptyGeneratedState.generatedSql ∧
      (handleRunModifiedSql 1 emptyGeneratedState (.ok sampleExecResult)).calls.head?
        = some (.execute 1 "SELECT 2") ∧
      (handleRunModifiedSql 1 emptyGeneratedState (.ok sampleExecResult)).feedback = none := by
  refine ⟨by decide, by decide, by decide⟩

/-- C3 as amended: in any editor state where isEditing tracks the comparison
of the editable text with the generated sql (the relation every edit and
every resynchronization establishes), a correction feedback record is
submitted if and only if the edited sql differs from the generated sql, the
generated sql is nonempty, and the (trimmed, nonblank) edited sql is
executed successfully; the record then carries the question, the generated
sql and the trimmed edited sql.  A failed execution never submits
feedback. -/
theorem feedback_iff_edited_and_executed (connId : Nat) (s : EditorState) (r : QueryResult)
    (hinv : s.isEditing = (s.editableSql != s.generatedSql)) :
    ((handleRunModifiedSql connId s (.ok r)).feedback ≠ none ↔
        (s.editableSql ≠ s.generatedSql ∧ s.generatedSql ≠ "" ∧ jsTrim s.editableSql ≠ "")) ∧
      (∀ message, (handleRunModifiedSql connId s (.thrown message)).feedback = none) ∧
      (s.editableSql ≠ s.generatedSql → s.generatedSql ≠ "" → jsTrim s.editableSql ≠ "" →
        (handleRunModifiedSql connId s (.ok r)).feedback
          = some { connection_id := connId, natural_language := s.query,
                   original_sql := s.generatedSql, corrected_sql := jsTrim s.editableSql }) := by
  by_cases h1 : jsTrim s.editableSql = ""
  · refine ⟨by simp [handleRunModifiedSql, h1],
      fun message => by simp [handleRunModifiedSql, h1], ?_⟩
    intro _ _ hc
    exact absurd h1 hc
  · by_cases h2 : s.editableSql = s.generatedSql
    · have hie : s.isEditing = false := by simp [hinv, h2]
      rw [h2] at h1
      refine ⟨by simp [handleRunModifiedSql, h1, hie, h2],
        fun message => by simp [handleRunModifiedSql, h1, h2], ?_⟩
      intro hc
      exact absurd h2 hc
    · have hie : s.isEditing = true := by simp [hinv, h2]
      by_cases h3 : s.generatedSql = ""
      · refine ⟨by simp [handleRunModifiedSql, h1, hie, h2, h3],
          fun message => by simp [handleRunModifiedSql, h1], ?_⟩
        intro _ hc _
        exact absurd h3 hc
      · refine ⟨by simp [handleRunModifiedSql, h1, hie, h2, h3],
          fun message => by simp [handleRunModifiedSql, h1], ?_⟩
        intro _ _ _
        simp [handleRunModifiedSql, h1, hie, h3]

/-- The editor state reached when a generated statement is resynchronized
into the textarea and then edited to a different statement. -/
def editedState : EditorState :=
  editSql (syncResult { generatedSql := "", editableSql := "", isEditing := false,
                        query := "count orders" } "SELECT 1") "SELECT 2"

/-- Concrete instance of the amended C3: an edit of a nonempty generated
statement, executed successfully, submits exactly one feedback record. -/
theorem feedback_iff_edited_and_executed_witness :
    editedState.isEditing = (editedState.editableSql != editedState.generatedSql) ∧
      (((handleRunModifiedSql 7 editedState (.ok sampleExecResult)).feedback ≠ none ↔
          (editedState.editableSql ≠ editedState.generatedSql ∧
            editedState.generatedSql ≠ "" ∧ jsTrim editedState.editableSql ≠ "")) ∧
        (∀ message, (handleRunModifiedSql 7 editedState (.thrown message)).feedback = none) ∧
        (editedState.editableSql ≠ editedState.generatedSql →
          editedState.generatedSql ≠ "" → jsTrim editedState.editableSql ≠ "" →
          (handleRunModifiedSql 7 editedState (.ok sampleExecResult)).feedback
            = some { connection_id := 7, natural_language := editedState.query,
                     original_sql := editedState.generatedSql,
                     corrected_sql := jsTrim editedState.editableSql })) :=
  ⟨by decide, feedback_iff_edited_and_executed 7 editedState sampleExecResult (by decide)⟩

/-- C7: resubmitting edited SQL re-enters the pipeline at execution: the
first (and possibly only) api call is execute with the trimmed edited sql,
and neither the ask endpoint nor the detect-parameters endpoint is ever
invoked by the resubmission, whatever the execution outcome. -/
theorem resubmission_reenters_at_execution (connId : Nat) (s : EditorState) (e : ExecOutcome)
    (h : jsTrim s.editableSql ≠ "") :
    (handleRunModifiedSql connId s e).calls.head?
        = some (.execute connId (jsTrim s.editableSql)) ∧
      ∀ cid nl, ApiCall.ask cid nl ∉ (handleRunModifiedSql connId s e).calls ∧
        ApiCall.detectParameters cid nl ∉ (handleRunModifiedSql connId s e).calls := by
  cases e with
  | ok r =>
      by_cases hf : s.isEditing && s.generatedSql != ""
      · simp [handleRunModifiedSql, h, hf]
      · simp [handleRunModifiedSql, h, hf]
  | thrown message =>
      simp [handleRunModifiedSql, h]

/-- Concrete instance of C7: resubmission after an edit executes the edited
statement and performs no generation call. -/
theorem resubmission_reenters_at_execution_witness :
    jsTrim editedState.editableSql ≠ "" ∧
      ((handleRunModifiedSql 7 editedState (.ok sampleExecResult)).calls.head?
          = some (.execute 7 (jsTrim editedState.editableSql)) ∧
        ∀ cid nl,
          ApiCall.ask cid nl ∉ (handleRunModifiedSql 7 editedState (.ok sampleExecResult)).calls ∧
          ApiCall.detectParameters cid nl
            ∉ (handleRunModifiedSql 7 editedState (.ok sampleExecResult)).calls) :=
  ⟨by decide, resubmission_reenters_at_execution 7 editedState (.ok sampleExecResult) (by decide)⟩

/-! ## Connection Registry (spec section 4.1) -/

/-- A stored connection: the fields of the Connection data model (spec
section 3, types/index.ts) with the credential kept only in encrypted
form. -/
structure ConnectionRecord where
  name : String
  db_type : String
  host : String
  port : Option Nat
  database_name : String
  username : String
  encrypted_password : String
  ssl_enabled : Bool
  is_readonly : Bool
deriving DecidableEq

/-- A registration descriptor (ConnectionCreate in types/index.ts), with the
plaintext credential supplied at creation. -/
structure ConnectionDescriptor where
  name : String
  db_type : String
  host : String
  port : Option Nat
  database_name : String
  username : String
  password : String
  ssl_enabled : Bool
  is_readonly : Bool
deriving DecidableEq

/-- A partial descriptor for update: every field optional, none meaning the
field was not supplied. -/
structure ConnectionUpdate where
  name : Option String
  db_type : Option String
  host : Option String
  port : Option (Option Nat)
  database_name : Option String
  username : Option String
  password : Option String
  ssl_enabled : Option Bool
  is_readonly : Option Bool
deriving DecidableEq

/-- The database an external target actually is: its coordinates and the
credential it accepts. -/
structure TargetDatabase where
  host : String
  port : Option Nat
  database_name : String
  username : String
  password : String
deriving DecidableEq

/-- Modelled from the spec: the Connection Registry is server code absent
from src/.  Spec section 4.1: register encrypts the credential material
before storage.  Encryption itself is kept abstract as a function
argument. -/
def registerConnection (encrypt : String → String) (d : ConnectionDescriptor) :
    ConnectionRecord :=
  { name := d.name, db_type := d.db_type, host := d.host, port := d.port,
    database_name := d.database_name, username := d.username,
    encrypted_password := encrypt d.password,
    ssl_enabled := d.ssl_enabled, is_readonly := d.is_readonly }

/-- Modelled from the spec: update re-encrypts only if a new credential was
supplied, and an omitted password leaves the stored secret untouched (spec
section 4.1).  The client (handleEdit in src/unnamed/part_000 88-102)
represents an unchanged password as the empty string, so an absent or empty
password field supplies no new credential.  Every other supplied field
replaces the stored one. -/
def updateConnection (encrypt : String → String) (c : ConnectionRecord)
    (p : ConnectionUpdate) : ConnectionRecord :=
  { name := p.name.getD c.name,
    db_type := p.db_type.getD c.db_type,
    host := p.host.getD c.host,
    port := p.port.getD c.port,
    database_name := p.database_name.getD c.database_name,
    username := p.username.getD c.username,
    encrypted_password :=
      match p.password with
      | some pw => if pw = "" then c.encrypted_password else encrypt pw
      | none => c.encrypted_password,
    ssl_enabled := p.ssl_enabled.getD c.ssl_enabled,
    is_readonly := p.is_readonly.getD c.is_readonly }

/-- Modelled from the spec: test opens a short-lived connection to the
configured coordinates and authenticates with the stored credential (spec
section 4.1); for a deterministic cipher this succeeds exactly when the
stored ciphertext matches the encryption of the credential the target
accepts. -/
def testConnection (encrypt : String → String) (c : ConnectionRecord)
    (t : TargetDatabase) : Bool :=
  (c.host == t.host) && (c.port == t.port) && (c.database_name == t.database_name)
    && (c.username == t.username) && (c.encrypted_password == encrypt t.password)

/-- C4: an update that supplies no new password (field absent, or empty as
the client sends for an untouched field) leaves the stored encrypted
credential unchanged, so register, update, test still succeeds against the
same target when the update leaves the connection coordinates alone; every
other supplied field is updated and every omitted field is preserved. -/
theorem password_is_write_only (encrypt : String → String) (d : ConnectionDescriptor)
    (p : ConnectionUpdate) (t : TargetDatabase)
    (hp : p.password = none ∨ p.password = some "") :
    (updateConnection encrypt (registerConnection encrypt d) p).encrypted_password
        = (registerConnection encrypt d).encrypted_password ∧
      (testConnection encrypt (registerConnection encrypt d) t = true →
        p.host = none → p.port = none → p.database_name = none → p.username = none →
        testConnection encrypt (updateConnection encrypt (registerConnection encrypt d) p) t
          = true) ∧
      (updateConnection encrypt (registerConnection encrypt d) p).name
          = p.name.getD d.name ∧
      (updateConnection encrypt (registerConnection encrypt d) p).db_type
          = p.db_type.getD d.db_type ∧
      (updateConnection encrypt (registerConnection encrypt d) p).host
          = p.host.getD d.host ∧
      (updateConnection encrypt (registerConnection encrypt d) p).port
          = p.port.getD d.port ∧
      (updateConnection encrypt (registerConnection encrypt d) p).database_name
          = p.database_name.getD d.database_name ∧
      (updateConnection encrypt (registerConnection encrypt d) p).username
          = p.username.getD d.username ∧
      (updateConnection encrypt (registerConnection encrypt d) p).ssl_enabled
          = p.ssl_enabled.getD d.ssl_enabled ∧
      (updateConnection encrypt (registerConnection encrypt d) p).is_readonly
          = p.is_readonly.getD d.is_readonly := by
  have hpw : (updateConnection encrypt (registerConnection encrypt d) p).encrypted_password
      = (registerConnection encrypt d).encrypted_password := by
    rcases hp with h | h <;> simp [updateConnection, h]
  refine ⟨hpw, ?_, ?_, ?_, ?_, ?_, ?_, ?_, ?_, ?_⟩
  · intro ht hh hpo hd hu
    rcases hp with h | h <;>
      simpa [updateConnection, registerConnection, testConnection, hh, hpo, hd, hu, h]
        using ht
  all_goals simp [updateConnection, registerConnection]

/-- A sample registration descriptor for the write-only password theorem. -/
def sampleDescriptor : ConnectionDescriptor :=
  { name := "prod", db_type := "postgres", host := "db.internal", port := some 5432,
    database_name := "sales", username := "app", password := "hunter2",
    ssl_enabled := true, is_readonly := true }

/-- A sample update renaming the connection and supplying no password, as
the edit form submits for an untouched password field. -/
def sampleUpdate : ConnectionUpdate :=
  { name := some "prod-renamed", db_type := none, host := none, port := none,
    database_name := none, username := none, password := some "",
    ssl_enabled := none, is_readonly := some false }

/-- The target database the sample descriptor points at. -/
def sampleTarget : TargetDatabase :=
  { host := "db.internal", port := some 5432, database_name := "sales",
    username := "app", password := "hunter2" }

/-- A concrete deterministic cipher for instantiating the registry
theorems. -/
def sampleEncrypt (pw : String) : String :=
  String.append "enc:" pw

/-- Concrete instance of C4: register, update without a new password, test
still succeeds and the rename took effect. -/
theorem password_is_write_only_witness :
    (sampleUpdate.password = none ∨ sampleUpdate.password = some "") ∧
      (updateConnection sampleEncrypt (registerConnection sampleEncrypt sampleDescriptor)
          sampleUpdate).encrypted_password
        = (registerConnection sampleEncrypt sampleDescriptor).encrypted_password ∧
      testConnection sampleEncrypt
          (updateConnection sampleEncrypt (registerConnection sampleEncrypt sampleDescriptor)
            sampleUpdate) sampleTarget = true ∧
      (updateConnection sampleEncrypt (registerConnection sampleEncrypt sampleDescriptor)
          sampleUpdate).name = "prod-renamed" := by
  have h := password_is_write_only sampleEncrypt sampleDescriptor sampleUpdate sampleTarget
    (Or.inr rfl)
  exact ⟨Or.inr rfl, h.1, h.2.1 (by decide) rfl rfl rfl rfl, by decide⟩

/-! ## History favorites (History.tsx and the favorite endpoint) -/

/-- A history entry as the client receives it (QueryHistory in
types/index.ts). -/
structure HistoryEntry where
  id : Nat
  connection_id : Nat
  natural_language_query : Option String
  generated_sql : Option String
  executed_at : String
  execution_time_ms : Option Nat
  row_count : Option Nat
  status : Option String
  error_message : Option String
  is_favorite : Bool
deriving DecidableEq

/-- The favorite flag the server stores for a history id, none when the id
is unknown. -/
def lookupFavorite : List (Nat × Bool) → Nat → Option Bool
  | [], _ => none
  | e :: tl, id => if e.1 = id then some e.2 else lookupFavorite tl id

/-- The server store with every entry of the given id set to the given
favorite value. -/
def setFavorite (entries : List (Nat × Bool)) (id : Nat) (v : Bool) :
    List (Nat × Bool) :=
  entries.map fun e => if e.1 == id then (e.1, v) else e

/-- Modelled from the spec: the favorite endpoint is server code absent from
src/.  Spec section 4.7: toggleFavorite flips and returns the new favorite
state; an unknown id is NotFound (none here). -/
def serverToggleFavorite (entries : List (Nat × Bool)) (id : Nat) :
    Option (List (Nat × Bool) × Bool) :=
  match lookupFavorite entries id with
  | none => none
  | some b => some (setFavorite entries id (!b), !b)

/-- The local state update of History.tsx 53-55: the entry with the toggled
id takes the is_favorite returned by the endpoint. -/
def applyToggleResult (history : List HistoryEntry) (id : Nat) (isFav : Bool) :
    List HistoryEntry :=
  history.map fun h => if h.id == id then { h with is_favorite := isFav } else h

/-- toggleFavorite (History.tsx 50-59) together with the modelled endpoint:
the server store and local list after the call, and the returned new state
(none when the endpoint failed, in which case the catch leaves the local
list untouched). -/
def toggleFavorite (server : List (Nat × Bool)) (history : List HistoryEntry)
    (id : Nat) : List (Nat × Bool) × List HistoryEntry × Option Bool :=
  match serverToggleFavorite server id with
  | none => (server, history, none)
  | some (server2, fav) => (server2, applyToggleResult history id fav, some fav)

/-- Setting the favorite of an id replaces whatever lookup previously
returned for it. -/
theorem lookupFavorite_setFavorite (entries : List (Nat × Bool)) (id : Nat) (v : Bool) :
    lookupFavorite (setFavorite entries id v) id
      = (lookupFavorite entries id).map fun _ => v := by
  induction entries with
  | nil => rfl
  | cons e tl ih =>
      by_cases he : e.1 = id
      · simp [setFavorite, lookupFavorite, he]
      · simp [setFavorite, lookupFavorite, he]
        simpa [setFavorite] using ih

/-- Every entry of the toggled id in the updated local list carries the
returned favorite value. -/
theorem applyToggleResult_favorite (history : List HistoryEntry) (id : Nat) (v : Bool) :
    ∀ e ∈ applyToggleResult history id v, e.id = id → e.is_favorite = v := by
  intro e he hid
  rcases List.mem_map.mp he with ⟨x, _, rfl⟩
  by_cases hx : x.id == id
  · simp [hx]
  · rw [if_neg (by simpa using hx)] at hid ⊢
    exact absurd hid (by simpa using hx)

/-- C8: toggling the favorite of a known history id returns the flipped
state, toggling it again returns the original state (two opposite booleans,
neither call erroring), the server store is back to the original flag, and
every local entry of that id shows the original flag again. -/
theorem toggleFavorite_twice_restores (server : List (Nat × Bool))
    (history : List HistoryEntry) (id : Nat) (b : Bool)
    (h : lookupFavorite server id = some b) :
    (toggleFavorite server history id).2.2 = some (!b) ∧
      (toggleFavorite (toggleFavorite server history id).1
          (toggleFavorite server history id).2.1 id).2.2 = some b ∧
      lookupFavorite (toggleFavorite (toggleFavorite server history id).1
          (toggleFavorite server history id).2.1 id).1 id = some b ∧
      ∀ e ∈ (toggleFavorite (toggleFavorite server history id).1
          (toggleFavorite server history id).2.1 id).2.1,
        e.id = id → e.is_favorite = b := by
  have h1 : serverToggleFavorite server id = some (setFavorite server id (!b), !b) := by
    simp [serverToggleFavorite, h]
  have h2 : lookupFavorite (setFavorite server id (!b)) id = some (!b) := by
    rw [lookupFavorite_setFavorite, h]
    rfl
  have h3 : serverToggleFavorite (setFavorite server id (!b)) id
      = some (setFavorite (setFavorite server id (!b)) id b, b) := by
    simp [serverToggleFavorite, h2, Bool.not_not]
  have h4 : lookupFavorite (setFavorite (setFavorite server id (!b)) id b) id = some b := by
    rw [lookupFavorite_setFavorite, h2]
    rfl
  refine ⟨by simp [toggleFavorite, h1], by simp [toggleFavorite, h1, h3],
    by simp [toggleFavorite, h1, h3, h4], ?_⟩
  simp only [toggleFavorite, h1, h3]
  exact applyToggleResult_favorite _ _ _

/-- A sample history entry for the favorite-toggling theorem. -/
def sampleHistoryEntry : HistoryEntry :=
  { id := 1, connection_id := 3, natural_language_query := some "how many orders",
    generated_sql := some "SELECT COUNT(*) FROM orders",
    executed_at := "2026-10-12T00:00:00Z", execution_time_ms := some 12,
    row_count := some 1, status := some "success", error_message := none,
    is_favorite := false }

/-- Concrete instance of C8 on a two-entry store. -/
theorem toggleFavorite_twice_restores_witness :
    lookupFavorite [(1, false), (2, true)] 1 = some false ∧
      ((toggleFavorite [(1, false), (2, true)] [sampleHistoryEntry] 1).2.2
          = some (!false) ∧
        (toggleFavorite (toggleFavorite [(1, false), (2, true)] [sampleHistoryEntry] 1).1
            (toggleFavorite [(1, false), (2, true)] [sampleHistoryEntry] 1).2.1 1).2.2
          = some false ∧
        lookupFavorite
            (toggleFavorite (toggleFavorite [(1, false), (2, true)] [sampleHistoryEntry] 1).1
              (toggleFavorite [(1, false), (2, true)] [sampleHistoryEntry] 1).2.1 1).1 1
          = some false ∧
        ∀ e ∈ (toggleFavorite (toggleFavorite [(1, false), (2, true)] [sampleHistoryEntry] 1).1
            (toggleFavorite [(1, false), (2, true)] [sampleHistoryEntry] 1).2.1 1).2.1,
          e.id = 1 → e.is_favorite = false) :=
  ⟨by decide, toggleFavorite_twice_restores [(1, false), (2, true)] [sampleHistoryEntry] 1
    false (by decide)⟩

/-! ## Shared api client interceptors (src/unnamed/part_003 19-38) -/

/-- Looks a header up by name in a request's header list. -/
def getHeader (headers : List (String × String)) (k : String) : Option String :=
  (headers.find? fun e => e.1 == k).map fun e => e.2

/-- Sets a header, replacing any previous value of that name, as the
assignment to config.headers.Authorization does. -/
def setHeader (headers : List (String × String)) (k v : String) :
    List (String × String) :=
  (k, v) :: headers.filter fun e => !(e.1 == k)

/-- The request interceptor (src/unnamed/part_003 20-26): when localStorage
holds a (truthy, hence nonempty) token it is attached as a bearer
Authorization header; otherwise the request is passed through unchanged. -/
def requestInterceptor (token : Option String) (headers : List (String × String)) :
    List (String × String) :=
  match token with
  | some t => if t ≠ "" then setHeader headers "Authorization" (String.append "Bearer " t) else headers
  | none => headers

/-- What the response error interceptor leaves behind: the stored token and
any navigation it performed. -/
structure AuthAction where
  token : Option String
  navigatedTo : Option String
deriving DecidableEq

/-- The response error interceptor (src/unnamed/part_003 29-38): a 401
response removes the stored token and navigates to the login page; any other
error leaves both alone. -/
def responseErrorInterceptor (token : Option String) (status : Option Nat) : AuthAction :=
  if status == some 401 then { token := none, navigatedTo := some "/login" }
  else { token := token, navigatedTo := none }

/-- C9: every request through the shared client carries the stored bearer
token when one exists, and a 401 response removes the stored token and
navigates to the login page, after which a request built from headers
without an Authorization header carries no token at all: no request
proceeds with the rejected token. -/
theorem bearer_token_attached_and_cleared_on_401 (token : Option String) (t : String)
    (headers h2 : List (String × String)) (status : Option Nat) :
    (token = some t → t ≠ "" →
        getHeader (requestInterceptor token headers) "Authorization"
          = some (String.append "Bearer " t)) ∧
      (status = some 401 →
        (responseErrorInterceptor token status).token = none ∧
          (responseErrorInterceptor token status).navigatedTo = some "/login" ∧
          (getHeader h2 "Authorization" = none →
            getHeader (requestInterceptor (responseErrorInterceptor token status).token h2)
              "Authorization" = none)) := by
  constructor
  · intro ht hne
    subst ht
    simp [requestInterceptor, hne, setHeader, getHeader]
  · intro h401
    subst h401
    refine ⟨by simp [responseErrorInterceptor], by simp [responseErrorInterceptor], ?_⟩
    intro hnone
    simpa [responseErrorInterceptor, requestInterceptor] using hnone

/-- Concrete instance of C9: a stored token is attached; after a 401 it is
gone and a fresh request carries no Authorization header. -/
theorem bearer_token_attached_and_cleared_on_401_witness :
    getHeader (requestInterceptor (some "tok123") []) "Authorization"
        = some (String.append "Bearer " "tok123") ∧
      (responseErrorInterceptor (some "tok123") (some 401)).token = none ∧
      (responseErrorInterceptor (some "tok123") (some 401)).navigatedTo = some "/login" ∧
      getHeader (requestInterceptor (responseErrorInterceptor (some "tok123") (some 401)).token
          []) "Authorization" = none := by
  have h := bearer_token_attached_and_cleared_on_401 (some "tok123") "tok123" [] []
    (some 401)
  exact ⟨h.1 rfl (by decide), (h.2 rfl).1, (h.2 rfl).2.1, (h.2 rfl).2.2 rfl⟩

/-! ## DataTable rendering (DataTable.tsx) -/

/-- The comparator of DataTable.tsx 25-34, parametric in the cell type: with
no sort column every comparison is 0; null cells sort last regardless of
direction; otherwise the JavaScript less-than on cells (abstracted as the lt
argument) yields the comparison, negated for a descending sort.  An
out-of-range index behaves as the incomparable undefined: comparison 0. -/
def rowComparator (lt : α → α → Bool) (isNull : α → Bool) (sortColumn : Option Nat)
    (asc : Bool) (a b : List α) : Int :=
  match sortColumn with
  | none => 0
  | some j =>
      match a.get? j, b.get? j with
      | some av, some bv =>
          if isNull av then 1
          else if isNull bv then -1
          else
            (if asc then 1 else -1) * (if lt av bv then -1 else if lt bv av then 1 else 0)
      | _, _ => 0

/-- sortedRows (DataTable.tsx 25-35): the rows sorted by the comparator and
cut to the first maxRows. -/
def sortedRows (lt : α → α → Bool) (isNull : α → Bool) (rows : List (List α))
    (sortColumn : Option Nat) (asc : Bool) (maxRows : Nat) : List (List α) :=
  (rows.mergeSort fun a b =>
    decide (rowComparator lt isNull sortColumn asc a b ≤ 0)).take maxRows

/-- The default of the maxRows prop (DataTable.tsx 11). -/
def defaultMaxRows : Nat := 100

/-- The body rows DataTable renders: none at all when the column list is
empty (the early return at DataTable.tsx 43-49), else the sorted and
truncated rows. -/
def renderedBodyRows (lt : α → α → Bool) (isNull : α → Bool) (columns : List String)
    (rows : List (List α)) (sortColumn : Option Nat) (asc : Bool) (maxRows : Nat) :
    List (List α) :=
  if columns.length = 0 then [] else sortedRows lt isNull rows sortColumn asc maxRows

/-- The truncation notice of DataTable.tsx 111-115, as the pair (rows shown,
total rows) of the text it displays, none when no notice is rendered.  The
empty-column early return renders no notice either. -/
def truncationNotice (columns : List String) (rows : List (List α)) (maxRows : Nat) :
    Option (Nat × Nat) :=
  if columns.length = 0 then none
  else if rows.length > maxRows then some (maxRows, rows.length) else none

/-- The JavaScript less-than on numeric-or-null cells, for instantiating the
DataTable theorems. -/
def sampleCellLt (a b : Option Int) : Bool :=
  match a, b with
  | some x, some y => decide (x < y)
  | _, _ => false

/-- Null test on the sample cell type. -/
def sampleCellIsNull (a : Option Int) : Bool := a.isNone

/-- C10 counterexample: with an empty column list and one row, DataTable
takes the early no-data return and renders zero body rows, not
min(rows.length, maxRows) = 1. -/
theorem empty_columns_render_no_rows :
    (renderedBodyRows sampleCellLt sampleCellIsNull ([] : List String)
        [[(some 3 : Option Int)]] none true defaultMaxRows).length
      ≠ min ([[(some 3 : Option Int)]] : List (List (Option Int))).length defaultMaxRows := by
  decide

/-- C10 as amended: whenever the column list is nonempty, DataTable renders
exactly min(rows.length, maxRows) body rows for every row list and sort
state, shows the notice (maxRows shown of rows.length total) exactly when
rows.length exceeds maxRows, and shows no notice otherwise; with an empty
column list it renders the no-data message and no body rows. -/
theorem datatable_renders_min_rows (lt : α → α → Bool) (isNull : α → Bool)
    (columns : List String) (rows : List (List α)) (sortColumn : Option Nat) (asc : Bool)
    (maxRows : Nat) (h : columns ≠ []) :
    (renderedBodyRows lt isNull columns rows sortColumn asc maxRows).length
        = min rows.length maxRows ∧
      (rows.length > maxRows →
        truncationNotice columns rows maxRows = some (maxRows, rows.length)) ∧
      (rows.length ≤ maxRows → truncationNotice columns rows maxRows = none) := by
  have hc : ¬columns.length = 0 := fun hc0 => h (List.length_eq_zero.mp hc0)
  refine ⟨?_, ?_, ?_⟩
  · simp [renderedBodyRows, sortedRows, hc, List.length_take, List.length_mergeSort,
      Nat.min_comm]
  · intro hgt
    simp [truncationNotice, hc, hgt]
  · intro hle
    simp [truncationNotice, hc, Nat.not_lt.mpr hle]

/-- Concrete instance of the amended C10: two rows cut to one with the
notice showing 1 of 2. -/
theorem datatable_renders_min_rows_witness :
    (["n"] : List String) ≠ [] ∧
      ((renderedBodyRows sampleCellLt sampleCellIsNull ["n"]
            [[(some 3 : Option Int)], [some 1]] (some 0) true 1).length
          = min ([[(some 3 : Option Int)], [some 1]] : List (List (Option Int))).length 1 ∧
        (([[(some 3 : Option Int)], [some 1]] : List (List (Option Int))).length > 1 →
          truncationNotice ["n"] ([[(some 3 : Option Int)], [some 1]] : List (List (Option Int))) 1
            = some (1, 2)) ∧
        (([[(some 3 : Option Int)], [some 1]] : List (List (Option Int))).length ≤ 1 →
          truncationNotice ["n"] ([[(some 3 : Option Int)], [some 1]] : List (List (Option Int))) 1
            = none)) :=
  ⟨by decide, datatable_renders_min_rows sampleCellLt sampleCellIsNull ["n"]
    [[(some 3 : Option Int)], [some 1]] (some 0) true 1 (by decide)⟩
